import Mathlib

/-!
Shallow embedding of `analysis_free_shipping_hk.py` (Olist HK free-shipping
analysis pipeline) and proofs about its analysis functions.

Tabular data is modelled as lists of records; pandas `NaN` cells are
modelled as `Option` values (`none` = missing); numeric cells are exact
rationals.  scipy's Welch t-test statistic and the Pearson correlation,
which involve square roots, live in `ℝ`.
-/

deriving instance DecidableEq for Except

/-- Arithmetic mean of a list of rationals (`pandas.Series.mean` on a
non-empty series of known values).  On `[]` this yields `0/0 = 0`; callers
guard emptiness where pandas would yield `NaN`. -/
def meanQ (l : List ℚ) : ℚ := l.sum / l.length

/-- Mean that skips missing values, as `pandas.Series.mean` does:
`NaN` (here `none`) entries are ignored, and the mean of a series with no
known value is itself `NaN` (`none`). -/
def meanOpt (l : List (Option ℚ)) : Option ℚ :=
  let v := l.filterMap id
  if v.isEmpty then none else some (meanQ v)

/-- One row of `marts.agg_seller_monthly_kpi` (seller-month table):
seller id + month form the composite key; `orders`, `gmv` and
`free_shipping_item_rate` are numeric columns. -/
structure SellerMonth where
  seller_id : String
  order_month : String
  orders : ℚ
  gmv : ℚ
  free_shipping_item_rate : ℚ
deriving DecidableEq, Repr

/-- One output row of `detect_campaign_sellers`.  The two uplift
percentages are `Option ℚ`: `none` models the `np.nan` produced when the
non-campaign average is not strictly positive. -/
structure CampaignRow where
  seller_id : String
  campaign_months : String
  avg_orders_campaign : ℚ
  avg_orders_non_campaign : ℚ
  order_uplift_pct : Option ℚ
  avg_gmv_campaign : ℚ
  avg_gmv_non_campaign : ℚ
  gmv_uplift_pct : Option ℚ
deriving DecidableEq, Repr

/-- A pandas DataFrame of campaign rows: the column schema together with
the rows.  An empty `columns` list models `pd.DataFrame([])`, which has no
columns at all. -/
structure CampaignTable where
  columns : List String
  rows : List CampaignRow
deriving DecidableEq, Repr

/-- The fixed eight-column schema of the campaign-seller summary. -/
def campaignColumns : List String :=
  ["seller_id", "campaign_months", "avg_orders_campaign",
   "avg_orders_non_campaign", "order_uplift_pct", "avg_gmv_campaign",
   "avg_gmv_non_campaign", "gmv_uplift_pct"]

/-- `candidate = df[(df["free_shipping_item_rate"] >= 0.8) & (df["orders"] >= 30)]`. -/
def campaignCandidates (input : List SellerMonth) : List SellerMonth :=
  input.filter fun r =>
    decide (0.8 ≤ r.free_shipping_item_rate ∧ 30 ≤ r.orders)

/-- `campaign_keys = set(zip(candidate["seller_id"], candidate["order_month"]))`. -/
def campaignKeys (input : List SellerMonth) : List (String × String) :=
  (campaignCandidates input).map fun r => (r.seller_id, r.order_month)

/-- `df["is_campaign_month"] = df.apply(lambda x: (x["seller_id"], x["order_month"]) in campaign_keys, axis=1)`. -/
def is_campaign_month (input : List SellerMonth) (r : SellerMonth) : Bool :=
  decide ((r.seller_id, r.order_month) ∈ campaignKeys input)

/-- The dict appended to `rows` for one qualifying seller: means of the
campaign and non-campaign groups and the guarded uplift percentages. -/
def mkCampaignRow (s : String) (camp non : List SellerMonth) : CampaignRow :=
  let avgOC := meanQ (camp.map (·.orders))
  let avgON := meanQ (non.map (·.orders))
  let avgGC := meanQ (camp.map (·.gmv))
  let avgGN := meanQ (non.map (·.gmv))
  { seller_id := s
    campaign_months :=
      ", ".intercalate (List.insertionSort (· ≤ ·) (camp.map (·.order_month)).dedup)
    avg_orders_campaign := avgOC
    avg_orders_non_campaign := avgON
    order_uplift_pct :=
      if 0 < avgON then some ((avgOC - avgON) / avgON * 100) else none
    avg_gmv_campaign := avgGC
    avg_gmv_non_campaign := avgGN
    gmv_uplift_pct :=
      if 0 < avgGN then some ((avgGC - avgGN) / avgGN * 100) else none }

/-- The `rows` list built by the `for seller, part in df.groupby("seller_id")`
loop: pandas iterates groups in ascending key order; sellers lacking a
campaign or a non-campaign month are skipped. -/
def campaignRowsOf (input : List SellerMonth) : List CampaignRow :=
  let sellers := List.insertionSort (· ≤ ·) (input.map (·.seller_id)).dedup
  sellers.filterMap fun s =>
    let part := input.filter fun r => decide (r.seller_id = s)
    let camp := part.filter (is_campaign_month input)
    let non := part.filter fun r => ! is_campaign_month input r
    if camp.isEmpty || non.isEmpty then none
    else some (mkCampaignRow s camp non)

/-- Ordering of the final `sort_values("gmv_uplift_pct", ascending=False)`:
descending on the uplift key, with missing (`NaN`) values last
(pandas default `na_position="last"`). -/
def gmvDescLe : Option ℚ → Option ℚ → Prop
  | none, none => True
  | some _, none => True
  | none, some _ => False
  | some a, some b => b ≤ a

instance gmvDescLe.decRel : DecidableRel gmvDescLe
  | none, none => isTrue trivial
  | some _, none => isTrue trivial
  | none, some _ => isFalse id
  | some a, some b => inferInstanceAs (Decidable (b ≤ a))

instance gmvDescLe.total : IsTotal (Option ℚ) gmvDescLe where
  total x y := by
    cases x <;> cases y <;> simp [gmvDescLe]
    exact le_total _ _

instance gmvDescLe.trans : IsTrans (Option ℚ) gmvDescLe where
  trans x y z hxy hyz := by
    cases x <;> cases y <;> cases z <;> simp_all [gmvDescLe]
    exact le_trans hyz hxy

/-- The row ordering used on the output table. -/
def campaignRowLe (a b : CampaignRow) : Prop :=
  gmvDescLe a.gmv_uplift_pct b.gmv_uplift_pct

instance campaignRowLe.decRel : DecidableRel campaignRowLe := fun a b =>
  inferInstanceAs (Decidable (gmvDescLe a.gmv_uplift_pct b.gmv_uplift_pct))

instance campaignRowLe.total : IsTotal CampaignRow campaignRowLe where
  total a b := IsTotal.total (r := gmvDescLe) a.gmv_uplift_pct b.gmv_uplift_pct

instance campaignRowLe.trans : IsTrans CampaignRow campaignRowLe where
  trans _ _ _ hab hbc := IsTrans.trans (r := gmvDescLe) _ _ _ hab hbc

/-- `detect_campaign_sellers`.  The empty-candidate branch returns the
empty table with the fixed eight-column schema.  Otherwise the per-seller
rows are built; if every seller was skipped, `pd.DataFrame([])` is a frame
with no columns, so `.sort_values("gmv_uplift_pct")` raises `KeyError` —
modelled as `Except.error`.  Otherwise the rows are sorted descending by
`gmv_uplift_pct` with `NaN` last. -/
def detect_campaign_sellers (input : List SellerMonth) :
    Except String CampaignTable :=
  if (campaignCandidates input).isEmpty then
    .ok ⟨campaignColumns, []⟩
  else if (campaignRowsOf input).isEmpty then
    .error "KeyError: gmv_uplift_pct"
  else
    .ok ⟨campaignColumns, List.insertionSort campaignRowLe (campaignRowsOf input)⟩

/-- One row of `marts.order_review_metrics` as selected by the extractor.
The flags are floats that may be `NaN`; `review_score` and the other
numeric metrics may be missing. -/
structure OrderReview where
  order_id : String
  order_month : String
  order_gmv : Option ℚ
  order_freight : Option ℚ
  is_free_shipping_order : Option ℚ
  hk_sim_free_ship_flag : Option ℚ
  avg_delivery_days : Option ℚ
  avg_distance_km : Option ℚ
  review_score : Option ℚ
deriving DecidableEq, Repr

/-- One row of the uplift summary produced by `uplift_analysis` /
`simulation_uplift_analysis`: the group key, the distinct-order count and
the four per-field means, plus the human-readable segment label. -/
structure UpliftRow where
  flag : Option ℚ
  orders : Nat
  avg_gmv : Option ℚ
  avg_freight : Option ℚ
  avg_delivery_days : Option ℚ
  avg_review : Option ℚ
  segment : String
deriving DecidableEq, Repr

/-- Key order used by `groupby(..., dropna=False)`: ascending flag values
with the `NaN` group placed last. -/
def flagLe : Option ℚ → Option ℚ → Prop
  | none, none => True
  | some _, none => True
  | none, some _ => False
  | some a, some b => a ≤ b

instance flagLe.decRel : DecidableRel flagLe
  | none, none => isTrue trivial
  | some _, none => isTrue trivial
  | none, some _ => isFalse id
  | some a, some b => inferInstanceAs (Decidable (a ≤ b))

instance flagLe.total : IsTotal (Option ℚ) flagLe where
  total x y := by
    cases x <;> cases y <;> simp [flagLe]
    exact le_total _ _

instance flagLe.trans : IsTrans (Option ℚ) flagLe where
  trans x y z hxy hyz := by
    cases x <;> cases y <;> cases z <;> simp_all [flagLe]
    exact le_trans hxy hyz

/-- The shared `groupby(flag, dropna=False).agg(...)` body of the two
uplift functions: one row per distinct flag value (the `NaN` group is
retained), distinct-order count and per-field means, then the segment
label `posLabel` iff the flag equals 1. -/
def flagGroupSummary (flagOf : OrderReview → Option ℚ)
    (posLabel negLabel : String) (input : List OrderReview) :
    List UpliftRow :=
  let keys := List.insertionSort flagLe (input.map flagOf).dedup
  keys.map fun k =>
    let g := input.filter fun r => decide (flagOf r = k)
    { flag := k
      orders := (g.map (·.order_id)).dedup.length
      avg_gmv := meanOpt (g.map (·.order_gmv))
      avg_freight := meanOpt (g.map (·.order_freight))
      avg_delivery_days := meanOpt (g.map (·.avg_delivery_days))
      avg_review := meanOpt (g.map (·.review_score))
      segment := if k = some 1 then posLabel else negLabel }

/-- `uplift_analysis`: group by `is_free_shipping_order`, segment labels
`FreeShipping` / `PaidShipping`. -/
def uplift_analysis (input : List OrderReview) : List UpliftRow :=
  flagGroupSummary (·.is_free_shipping_order) "FreeShipping" "PaidShipping" input

/-- `simulation_uplift_analysis`: group by `hk_sim_free_ship_flag`,
segment labels `HK_Policy_Eligible` / `HK_Policy_NotEligible`. -/
def simulation_uplift_analysis (input : List OrderReview) : List UpliftRow :=
  flagGroupSummary (·.hk_sim_free_ship_flag) "HK_Policy_Eligible" "HK_Policy_NotEligible" input

/-- The `free` sample of `ttest_analysis`: review scores of rows with
`is_free_shipping_order == 1` and a non-missing review score. -/
def freeSample (input : List OrderReview) : List ℚ :=
  (input.filter fun r =>
      decide (r.is_free_shipping_order = some 1) && r.review_score.isSome).filterMap
    (·.review_score)

/-- The `paid` sample of `ttest_analysis`: review scores of rows with
`is_free_shipping_order == 0` and a non-missing review score. -/
def paidSample (input : List OrderReview) : List ℚ :=
  (input.filter fun r =>
      decide (r.is_free_shipping_order = some 0) && r.review_score.isSome).filterMap
    (·.review_score)

/-- Unbiased sample variance (`ddof=1`), as used by
`scipy.stats.ttest_ind`. -/
def sampleVar (l : List ℚ) : ℚ :=
  (l.map fun x => (x - meanQ l) ^ 2).sum / ((l.length : ℚ) - 1)

/-- The Welch t-statistic computed by
`scipy.stats.ttest_ind(a, b, equal_var=False)`:
`(mean a - mean b) / sqrt(var a / n_a + var b / n_b)`. -/
noncomputable def welchT (a b : List ℚ) : ℝ :=
  ((meanQ a - meanQ b : ℚ) : ℝ) /
    Real.sqrt ((sampleVar a / a.length + sampleVar b / b.length : ℚ) : ℝ)

/-- The Welch–Satterthwaite degrees of freedom used by scipy for the
unequal-variance test. -/
def welchDf (a b : List ℚ) : ℚ :=
  let va := sampleVar a / a.length
  let vb := sampleVar b / b.length
  (va + vb) ^ 2 /
    (va ^ 2 / ((a.length : ℚ) - 1) + vb ^ 2 / ((b.length : ℚ) - 1))

/-- Density of Student's t-distribution with `df` degrees of freedom. -/
noncomputable def studentTPdf (df x : ℝ) : ℝ :=
  Real.Gamma ((df + 1) / 2) / (Real.sqrt (df * Real.pi) * Real.Gamma (df / 2)) *
    (1 + x ^ 2 / df) ^ (-((df + 1) / 2))

/-- Two-sided p-value of the Welch test: twice the upper tail of the
Student t-distribution at `|t|` with Welch–Satterthwaite df. -/
noncomputable def welchP (a b : List ℚ) : ℝ :=
  2 * ∫ x in Set.Ioi |welchT a b|, studentTPdf ((welchDf a b : ℚ) : ℝ) x

/-- The single row of the DataFrame returned by `ttest_analysis`. -/
structure TTestRow where
  metric : String
  group_a : String
  group_b : String
  mean_a : Option ℚ
  mean_b : Option ℚ
  t_stat : ℝ
  p_value : ℝ
  n_a : Nat
  n_b : Nat

/-- `ttest_analysis`: restrict to known flag / known review rows, run the
Welch test, and report statistic, p-value, group means and sizes.
`Series.mean()` of an empty selection is `NaN` (`none`). -/
noncomputable def ttest_analysis (input : List OrderReview) : TTestRow :=
  let free := freeSample input
  let paid := paidSample input
  { metric := "review_score"
    group_a := "FreeShipping"
    group_b := "PaidShipping"
    mean_a := if free.isEmpty then none else some (meanQ free)
    mean_b := if paid.isEmpty then none else some (meanQ paid)
    t_stat := welchT free paid
    p_value := welchP free paid
    n_a := free.length
    n_b := paid.length }

/-- The five fixed columns analyzed by `correlation_analysis`. -/
inductive CorrCol where
  | avg_delivery_days
  | avg_distance_km
  | order_count
  | avg_freight_per_order
  | free_shipping_order_rate
deriving DecidableEq, Repr

/-- One row of `analytics.v_monthly_corr_input`; any numeric cell may be
missing. -/
structure CorrInputRow where
  order_month : String
  avg_delivery_days : Option ℚ
  avg_distance_km : Option ℚ
  order_count : Option ℚ
  avg_freight_per_order : Option ℚ
  free_shipping_order_rate : Option ℚ
deriving DecidableEq, Repr

/-- Cell lookup by analyzed column. -/
def colVal : CorrCol → CorrInputRow → Option ℚ
  | .avg_delivery_days, r => r.avg_delivery_days
  | .avg_distance_km, r => r.avg_distance_km
  | .order_count, r => r.order_count
  | .avg_freight_per_order, r => r.avg_freight_per_order
  | .free_shipping_order_rate, r => r.free_shipping_order_rate

/-- Pairwise-complete observations for columns `i`, `j`: the rows where
both cells are known (pandas `.corr` deletes a row for a pair exactly when
either cell of the pair is missing). -/
def pairsOf (input : List CorrInputRow) (i j : CorrCol) : List (ℚ × ℚ) :=
  input.filterMap fun r =>
    match colVal i r, colVal j r with
    | some a, some b => some (a, b)
    | _, _ => none

/-- Centered cross-product sum `Σ (x - mean x)(y - mean y)` of a paired
sample. -/
def sXY (ps : List (ℚ × ℚ)) : ℚ :=
  (ps.map fun p =>
    (p.1 - meanQ (ps.map Prod.fst)) * (p.2 - meanQ (ps.map Prod.snd))).sum

/-- Centered sum of squares of the first components. -/
def sXX (ps : List (ℚ × ℚ)) : ℚ :=
  (ps.map fun p => (p.1 - meanQ (ps.map Prod.fst)) ^ 2).sum

/-- Centered sum of squares of the second components. -/
def sYY (ps : List (ℚ × ℚ)) : ℚ :=
  (ps.map fun p => (p.2 - meanQ (ps.map Prod.snd)) ^ 2).sum

/-- `correlation_analysis`: the Pearson correlation matrix over the five
fixed columns, with pandas' pairwise deletion of incomplete rows. -/
noncomputable def correlation_analysis (input : List CorrInputRow)
    (i j : CorrCol) : ℝ :=
  let ps := pairsOf input i j
  ((sXY ps : ℚ) : ℝ) / Real.sqrt (((sXX ps * sYY ps : ℚ) : ℝ))

/-- Centered sum of squares of column `i` over the rows where it is
present: the denominator ingredient of the diagonal correlation cell. -/
def diagS (input : List CorrInputRow) (i : CorrCol) : ℚ :=
  sXX (pairsOf input i i)

/-- One row of `analytics.sim_hk_policy_monthly`. -/
structure PolicySim where
  order_month : String
  apply_rate : ℚ
  subsidy_cost_estimate : ℚ
  gmv : ℚ
deriving DecidableEq, Repr

/-- Result of a numpy float64 scalar expression: a finite rational, a
signed infinity, or `NaN`.  Division by zero yields a signed infinity for
a non-zero numerator and `NaN` for `0/0`. -/
inductive PyFloat where
  | nan : PyFloat
  | pinf : PyFloat
  | ninf : PyFloat
  | fin : ℚ → PyFloat
deriving DecidableEq, Repr

/-- The reporter's `((free_avg - paid_avg) / paid_avg) * 100`, with numpy
float semantics: a missing operand gives `NaN`; a zero denominator gives a
signed infinity (or `NaN` for `0/0`); otherwise the exact rational.  Note
there is no strict-positivity guard on the denominator. -/
def gmvDeltaPct (freeAvg paidAvg : Option ℚ) : PyFloat :=
  match freeAvg, paidAvg with
  | some f, some p =>
    if p = 0 then
      if 0 < f - p then .pinf else if f - p < 0 then .ninf else .nan
    else .fin ((f - p) / p * 100)
  | _, _ => .nan

/-- The scalar quantities `build_recommendation_text` interpolates into
its fixed template (the string formatting itself is presentation and not
modelled). -/
structure RecommendationParts where
  corr_ship_order : ℝ
  review_delta : Option ℚ
  gmv_delta_pct : PyFloat
  p_value : ℝ
  top_seller : Option CampaignRow
  avg_apply_rate : Option ℚ
  subsidyPct : Option ℚ

/-- `build_recommendation_text`, up to string formatting.  The
`.iloc[0]` row selections for the `FreeShipping` and `PaidShipping`
segments (in that source order) raise `IndexError` when the selection is
empty — modelled as `Except.error`.  `policy_sim` aggregates are guarded
exactly as in the source. -/
def build_recommendation_parts (corr : CorrCol → CorrCol → ℝ)
    (uplift : List UpliftRow) (ttest : TTestRow)
    (seller_uplift : CampaignTable) (policy_sim : List PolicySim) :
    Except String RecommendationParts :=
  let corr_ship_order := corr .order_count .avg_freight_per_order
  match (uplift.filter fun r => decide (r.segment = "FreeShipping")).head? with
  | none => .error "IndexError: single positional indexer is out-of-bounds"
  | some free_row =>
    match (uplift.filter fun r => decide (r.segment = "PaidShipping")).head? with
    | none => .error "IndexError: single positional indexer is out-of-bounds"
    | some paid_row =>
      .ok
        { corr_ship_order := corr_ship_order
          review_delta :=
            match free_row.avg_review, paid_row.avg_review with
            | some a, some b => some (a - b)
            | _, _ => none
          gmv_delta_pct := gmvDeltaPct free_row.avg_gmv paid_row.avg_gmv
          p_value := ttest.p_value
          top_seller := seller_uplift.rows.head?
          avg_apply_rate :=
            if policy_sim.isEmpty then none
            else some (meanQ (policy_sim.map (·.apply_rate)))
          subsidyPct :=
            if ¬ policy_sim.isEmpty ∧ 0 < (policy_sim.map (·.gmv)).sum then
              some ((policy_sim.map (·.subsidy_cost_estimate)).sum /
                (policy_sim.map (·.gmv)).sum * 100)
            else none }

/-- Seller-month input of the S1 scenario: two campaign months
(rate ≥ 0.8, orders ≥ 30) and one non-campaign month. -/
def exSellerS1 : List SellerMonth :=
  [⟨"S1", "2017-01", 40, 1000, 0.85⟩,
   ⟨"S1", "2017-02", 50, 1200, 0.9⟩,
   ⟨"S1", "2017-03", 10, 200, 0⟩]

/-- The detector's output row on the S1 scenario. -/
def exRowS1 : CampaignRow :=
  ⟨"S1", "2017-01, 2017-02", 45, 10, some 350, 1100, 200, some 450⟩

/-- The detector's output table on the S1 scenario. -/
def exTableS1 : CampaignTable := ⟨campaignColumns, [exRowS1]⟩

/-- Order-review input whose paid-shipping group has average GMV zero. -/
def exRepOrders : List OrderReview :=
  [⟨"O1", "2017-01", some 100, some 10, some 1, some 1, some 3, some 5, some 5⟩,
   ⟨"O2", "2017-01", some 0, some 10, some 0, some 0, some 3, some 5, some 3⟩]

/-- A fixed t-test row used when exercising the reporter on concrete
inputs. -/
noncomputable def exTTestZero : TTestRow :=
  ⟨"review_score", "FreeShipping", "PaidShipping", some 5, some 3, 0, 0, 1, 1⟩

/-- Order-review input with two known reviews in each flag group and
positive sample variance in both. -/
def exTTOrders : List OrderReview :=
  [⟨"O1", "2017-01", some 100, some 10, some 1, some 1, some 3, some 5, some 5⟩,
   ⟨"O2", "2017-01", some 90, some 10, some 1, some 0, some 3, some 5, some 4⟩,
   ⟨"O3", "2017-01", some 80, some 10, some 0, some 1, some 3, some 5, some 3⟩,
   ⟨"O4", "2017-01", some 70, some 10, some 0, some 0, some 3, some 5, some 1⟩,
   ⟨"O5", "2017-01", some 60, some 10, none, none, some 3, some 5, some 2⟩]

/-- Order-review input containing no row with free-shipping flag 1. -/
def exNoFreeOrders : List OrderReview :=
  [⟨"O1", "2017-01", some 100, some 10, none, none, some 3, some 5, some 5⟩,
   ⟨"O2", "2017-01", some 50, some 10, some 0, some 0, some 3, some 5, some 4⟩]

/-- Two-row correlation input with every analyzed column present and
non-constant. -/
def exCorrRows : List CorrInputRow :=
  [⟨"2017-01", some 1, some 2, some 3, some 4, some 5⟩,
   ⟨"2017-02", some 2, some 4, some 6, some 8, some 10⟩]

/-- Every row produced by the per-seller loop is `mkCampaignRow` of some
seller with a non-empty campaign group and a non-empty non-campaign
group. -/
theorem mem_campaignRowsOf {input : List SellerMonth} {row : CampaignRow}
    (h : row ∈ campaignRowsOf input) :
    ∃ s camp non, ¬ camp.isEmpty ∧ ¬ non.isEmpty ∧
      row = mkCampaignRow s camp non := by
  unfold campaignRowsOf at h
  rw [List.mem_filterMap] at h
  obtain ⟨s, hs, hf⟩ := h
  dsimp only at hf
  split at hf
  · exact absurd hf (by simp)
  · rename_i hc
    rw [Bool.or_eq_true, not_or] at hc
    exact ⟨s, _, _, by simpa using hc.1, by simpa using hc.2,
      (Option.some.inj hf).symm⟩

/-- Rows of a successfully returned campaign table all come from the
per-seller loop. -/
theorem mem_rows_of_ok {input : List SellerMonth} {t : CampaignTable}
    (h : detect_campaign_sellers input = .ok t) {row : CampaignRow}
    (hr : row ∈ t.rows) : row ∈ campaignRowsOf input := by
  unfold detect_campaign_sellers at h
  split at h
  · cases h
    simp at hr
  · split at h
    · cases h
    · cases h
      simpa using hr

/-- The two uplift percentages of a constructed row are missing exactly
when the corresponding non-campaign average is not strictly positive. -/
theorem mkCampaignRow_guard (s : String) (camp non : List SellerMonth) :
    ((mkCampaignRow s camp non).order_uplift_pct = none ↔
      (mkCampaignRow s camp non).avg_orders_non_campaign ≤ 0) ∧
    ((mkCampaignRow s camp non).gmv_uplift_pct = none ↔
      (mkCampaignRow s camp non).avg_gmv_non_campaign ≤ 0) := by
  unfold mkCampaignRow
  constructor <;> dsimp only <;> split_ifs with h
  · simp [h.not_le]
  · simp [not_lt.mp h]
  · simp [h.not_le]
  · simp [not_lt.mp h]

set_option maxHeartbeats 1000000 in
/-- Value of the uplift summary on `exRepOrders`. -/
theorem uplift_exRep :
    uplift_analysis exRepOrders =
      [⟨some 0, 1, some 0, some 10, some 3, some 3, "PaidShipping"⟩,
       ⟨some 1, 1, some 100, some 10, some 3, some 5, "FreeShipping"⟩] := by
  norm_num +decide [uplift_analysis, flagGroupSummary, meanOpt, meanQ,
    exRepOrders, List.insertionSort, List.orderedInsert, List.dedup,
    List.filter, List.filterMap]

/-- Evaluation of the detector on the S1 scenario input. -/
theorem detect_s1_eval :
    detect_campaign_sellers exSellerS1 = .ok exTableS1 := by
  norm_num +decide [detect_campaign_sellers, campaignCandidates,
    campaignRowsOf, campaignKeys, is_campaign_month, mkCampaignRow, meanQ,
    exSellerS1, exTableS1, exRowS1, List.insertionSort, List.orderedInsert,
    List.dedup, List.filter, List.filterMap]

/-- C4: on the S1 scenario input (two campaign months with orders 40/50
and GMV 1000/1200, one non-campaign month with orders 10 and GMV 200) the
detector reports avg_orders 45 vs 10, order uplift 350.0%, avg GMV 1100
vs 200, GMV uplift 450.0%. -/
theorem campaign_scenario_s1 :
    detect_campaign_sellers exSellerS1 = .ok exTableS1 := detect_s1_eval

/-- C2: the empty input and the no-candidate input both yield the
zero-row table with the full eight-column schema; but on an input whose
only seller-month qualifies (candidates exist, yet every candidate seller
lacks a non-campaign month) the function raises instead of returning the
schema-carrying empty table: the `rows` list is empty, `pd.DataFrame([])`
carries no columns, and `.sort_values("gmv_uplift_pct")` raises
`KeyError`. -/
theorem detect_empty_schema_and_keyerror :
    detect_campaign_sellers [] = .ok ⟨campaignColumns, []⟩ ∧
    detect_campaign_sellers [⟨"S1", "2017-01", 10, 1000, 0.9⟩] =
      .ok ⟨campaignColumns, []⟩ ∧
    detect_campaign_sellers [⟨"S1", "2017-01", 40, 1000, 0.9⟩] =
      .error "KeyError: gmv_uplift_pct" := by
  refine ⟨?_, ?_, ?_⟩ <;>
    norm_num +decide [detect_campaign_sellers, campaignCandidates,
      campaignRowsOf, campaignKeys, is_campaign_month, mkCampaignRow, meanQ,
      List.insertionSort, List.orderedInsert, List.dedup, List.filter,
      List.filterMap, List.pwFilter]

/-- C1 (counterexample): on `exRepOrders` the paid-shipping group's
average GMV is 0, yet the reporter's free-vs-paid GMV delta percentage is
`+∞` — a division by zero happened and the result is not reported as
missing (`NaN`), refuting the claimed guard in
`build_recommendation_text`. -/
theorem gmv_delta_unguarded_cex :
    ((uplift_analysis exRepOrders).filter fun r =>
        decide (r.segment = "PaidShipping")).head?.map UpliftRow.avg_gmv =
      some (some 0) ∧
    (build_recommendation_parts (fun _ _ => 0) (uplift_analysis exRepOrders)
        exTTestZero ⟨campaignColumns, []⟩ []).map
        RecommendationParts.gmv_delta_pct = .ok PyFloat.pinf ∧
    PyFloat.pinf ≠ PyFloat.nan := by
  rw [uplift_exRep]
  refine ⟨by norm_num +decide [List.filter], ?_, by decide⟩
  norm_num +decide [build_recommendation_parts, List.filter, gmvDeltaPct,
    Except.map]

/-- C1 (amended): in `detect_campaign_sellers` every reported uplift
percentage is missing (`NaN`) exactly when its non-campaign baseline
average is not strictly positive; but in `build_recommendation_text` the
free-vs-paid GMV delta percentage is NOT guarded: with a zero
paid-shipping average GMV and a positive free-shipping average it is
computed by division anyway and yields `+∞` rather than missing. -/
theorem uplift_guard_amended :
    (∀ (input : List SellerMonth) (t : CampaignTable),
        detect_campaign_sellers input = .ok t →
        ∀ row ∈ t.rows,
          (row.order_uplift_pct = none ↔ row.avg_orders_non_campaign ≤ 0) ∧
          (row.gmv_uplift_pct = none ↔ row.avg_gmv_non_campaign ≤ 0)) ∧
    (∀ f : ℚ, 0 < f → gmvDeltaPct (some f) (some 0) = PyFloat.pinf) := by
  constructor
  · intro input t hok row hr
    obtain ⟨s, camp, non, _, _, hrow⟩ :=
      mem_campaignRowsOf (mem_rows_of_ok hok hr)
    subst hrow
    exact mkCampaignRow_guard s camp non
  · intro f hf
    simp [gmvDeltaPct, hf]

/-- Witness for `uplift_guard_amended` at the S1 scenario and at the
free/paid averages 100 and 0. -/
theorem uplift_guard_amended_witness :
    detect_campaign_sellers exSellerS1 = .ok exTableS1 ∧
    exRowS1 ∈ exTableS1.rows ∧
    ((exRowS1.order_uplift_pct = none ↔ exRowS1.avg_orders_non_campaign ≤ 0) ∧
      (exRowS1.gmv_uplift_pct = none ↔ exRowS1.avg_gmv_non_campaign ≤ 0)) ∧
    0 < (100 : ℚ) ∧ gmvDeltaPct (some 100) (some 0) = PyFloat.pinf := by
  have hok : detect_campaign_sellers exSellerS1 = .ok exTableS1 :=
    detect_s1_eval
  have hmem : exRowS1 ∈ exTableS1.rows := by simp [exTableS1]
  exact ⟨hok, hmem,
    uplift_guard_amended.1 exSellerS1 exTableS1 hok exRowS1 hmem,
    by norm_num, uplift_guard_amended.2 100 (by norm_num)⟩

/-- C3: under uniqueness of the (seller id, month) composite key, a
seller-month row is classified as a campaign month iff its free-shipping
item rate is at least 0.80 and its order count is at least 30 — those two
fixed thresholds are the sole criterion. -/
theorem campaign_month_iff_thresholds (input : List SellerMonth)
    (h : (input.map fun r => (r.seller_id, r.order_month)).Nodup) :
    ∀ r ∈ input, is_campaign_month input r = true ↔
      (0.8 ≤ r.free_shipping_item_rate ∧ 30 ≤ r.orders) := by
  intro r hr
  unfold is_campaign_month campaignKeys campaignCandidates
  simp only [decide_eq_true_eq, List.mem_map]
  constructor
  · rintro ⟨c, hc, hkey⟩
    rw [List.mem_filter, decide_eq_true_eq] at hc
    have hcr : c = r := List.inj_on_of_nodup_map h hc.1 hr hkey
    exact hcr ▸ hc.2
  · intro hpred
    exact ⟨r, List.mem_filter.mpr ⟨hr, by simpa using hpred⟩, rfl⟩

/-- Witness for `campaign_month_iff_thresholds` on the S1 scenario input
at its first row. -/
theorem campaign_month_iff_thresholds_witness :
    (exSellerS1.map fun r => (r.seller_id, r.order_month)).Nodup ∧
    (is_campaign_month exSellerS1 ⟨"S1", "2017-01", 40, 1000, 0.85⟩ = true ↔
      (0.8 ≤ (0.85 : ℚ) ∧ 30 ≤ (40 : ℚ))) := by
  have h : (exSellerS1.map fun r => (r.seller_id, r.order_month)).Nodup := by
    decide
  exact ⟨h, campaign_month_iff_thresholds exSellerS1 h _
    (by simp [exSellerS1])⟩

/-- A seller id heads some row of the per-seller loop output iff that
seller has both a campaign month and a non-campaign month in the input. -/
theorem seller_mem_campaignRowsOf (input : List SellerMonth) (s : String) :
    (∃ row ∈ campaignRowsOf input, row.seller_id = s) ↔
      ((∃ r ∈ input, r.seller_id = s ∧ is_campaign_month input r = true) ∧
       (∃ r ∈ input, r.seller_id = s ∧ is_campaign_month input r = false)) := by
  unfold campaignRowsOf
  constructor
  · rintro ⟨row, hrow, hsid⟩
    rw [List.mem_filterMap] at hrow
    obtain ⟨s', hs', hf⟩ := hrow
    dsimp only at hf
    split at hf
    · exact absurd hf (by simp)
    · rename_i hc
      rw [Bool.or_eq_true, not_or] at hc
      cases Option.some.inj hf
      have hss : s' = s := hsid
      subst hss
      have h1 : ∃ x ∈ input, is_campaign_month input x = true ∧
          x.seller_id = s' := by simpa using hc.1
      have h2 : ∃ x ∈ input, is_campaign_month input x = false ∧
          x.seller_id = s' := by simpa using hc.2
      obtain ⟨c, hcmem, hccamp, hcs⟩ := h1
      obtain ⟨n, hnmem, hncamp, hns⟩ := h2
      exact ⟨⟨c, hcmem, hcs, hccamp⟩, ⟨n, hnmem, hns, hncamp⟩⟩
  · rintro ⟨⟨rc, hrc, hrcs, hrcamp⟩, ⟨rn, hrn, hrns, hrnon⟩⟩
    have hne : ¬(((input.filter fun r => decide (r.seller_id = s)).filter
          (is_campaign_month input)).isEmpty ||
        ((input.filter fun r => decide (r.seller_id = s)).filter
          fun r => ! is_campaign_month input r).isEmpty) = true := by
      simp only [Bool.or_eq_true, not_or]
      constructor
      · simp only [List.isEmpty_eq_true, List.filter_eq_nil_iff, not_forall]
        simp only [List.mem_filter, decide_eq_true_eq, not_not]
        exact ⟨rc, ⟨hrc, by simp [hrcs]⟩, by simp [hrcamp]⟩
      · simp only [List.isEmpty_eq_true, List.filter_eq_nil_iff, not_forall]
        simp only [List.mem_filter, decide_eq_true_eq, not_not]
        exact ⟨rn, ⟨hrn, by simp [hrns]⟩, by simp [hrnon]⟩
    refine ⟨mkCampaignRow s
        ((input.filter fun r => decide (r.seller_id = s)).filter
          (is_campaign_month input))
        ((input.filter fun r => decide (r.seller_id = s)).filter
          fun r => ! is_campaign_month input r),
      List.mem_filterMap.mpr ⟨s, ?_, ?_⟩, rfl⟩
    · simp only [List.mem_insertionSort, List.mem_dedup, List.mem_map]
      exact ⟨rc, hrc, hrcs⟩
    · dsimp only
      rw [if_neg hne]

/-- C5: a seller appears in a successfully returned output table iff it
has at least one campaign month and at least one non-campaign month in
the input; sellers lacking either group never produce a row. -/
theorem seller_in_output_iff_both_groups (input : List SellerMonth)
    (t : CampaignTable) (h : detect_campaign_sellers input = .ok t)
    (s : String) :
    (∃ row ∈ t.rows, row.seller_id = s) ↔
      ((∃ r ∈ input, r.seller_id = s ∧ is_campaign_month input r = true) ∧
       (∃ r ∈ input, r.seller_id = s ∧ is_campaign_month input r = false)) := by
  unfold detect_campaign_sellers at h
  split at h
  · rename_i hcand
    cases h
    constructor
    · rintro ⟨row, hrow, _⟩
      simp at hrow
    · rintro ⟨⟨rc, hrc, hrcs, hrcamp⟩, _⟩
      exfalso
      unfold is_campaign_month campaignKeys at hrcamp
      rw [List.isEmpty_iff] at hcand
      simp [hcand] at hrcamp
  · split at h
    · cases h
    · cases h
      rw [← seller_mem_campaignRowsOf input s]
      constructor
      · rintro ⟨row, hrow, hs⟩
        exact ⟨row, by simpa using hrow, hs⟩
      · rintro ⟨row, hrow, hs⟩
        exact ⟨row, by simpa using hrow, hs⟩

/-- Witness for `seller_in_output_iff_both_groups` on the S1 scenario. -/
theorem seller_in_output_iff_both_groups_witness :
    detect_campaign_sellers exSellerS1 = .ok exTableS1 ∧
    ((∃ row ∈ exTableS1.rows, row.seller_id = "S1") ↔
      ((∃ r ∈ exSellerS1, r.seller_id = "S1" ∧
          is_campaign_month exSellerS1 r = true) ∧
       (∃ r ∈ exSellerS1, r.seller_id = "S1" ∧
          is_campaign_month exSellerS1 r = false))) :=
  ⟨detect_s1_eval,
    seller_in_output_iff_both_groups exSellerS1 exTableS1 detect_s1_eval "S1"⟩

/-- C6: the rows of a successfully returned output table are sorted by
`gmv_uplift_pct` descending, missing (`NaN`) uplift values last — the
pairwise order is `gmvDescLe` on the uplift key. -/
theorem output_sorted_gmv_desc (input : List SellerMonth)
    (t : CampaignTable) (h : detect_campaign_sellers input = .ok t) :
    t.rows.Sorted fun a b => gmvDescLe a.gmv_uplift_pct b.gmv_uplift_pct := by
  unfold detect_campaign_sellers at h
  split at h
  · cases h
    exact List.sorted_nil
  · split at h
    · cases h
    · cases h
      exact List.sorted_insertionSort campaignRowLe (campaignRowsOf input)

/-- Witness for `output_sorted_gmv_desc` on the S1 scenario. -/
theorem output_sorted_gmv_desc_witness :
    detect_campaign_sellers exSellerS1 = .ok exTableS1 ∧
    exTableS1.rows.Sorted
      (fun a b => gmvDescLe a.gmv_uplift_pct b.gmv_uplift_pct) :=
  ⟨detect_s1_eval,
    output_sorted_gmv_desc exSellerS1 exTableS1 detect_s1_eval⟩

/-- The flag column of the group summary is the sorted deduplication of
the input's flag column. -/
theorem flagGroupSummary_map_flag (flagOf : OrderReview → Option ℚ)
    (pos neg : String) (input : List OrderReview) :
    (flagGroupSummary flagOf pos neg input).map UpliftRow.flag =
      List.insertionSort flagLe (input.map flagOf).dedup := by
  unfold flagGroupSummary
  rw [List.map_map]
  have hcomp : (UpliftRow.flag ∘ fun k =>
      (⟨k, ((input.filter fun r => decide (flagOf r = k)).map
          (·.order_id)).dedup.length,
        meanOpt ((input.filter fun r => decide (flagOf r = k)).map (·.order_gmv)),
        meanOpt ((input.filter fun r => decide (flagOf r = k)).map (·.order_freight)),
        meanOpt ((input.filter fun r => decide (flagOf r = k)).map (·.avg_delivery_days)),
        meanOpt ((input.filter fun r => decide (flagOf r = k)).map (·.review_score)),
        if k = some 1 then pos else neg⟩ : UpliftRow)) = id :=
    funext fun k => rfl
  rw [hcomp, List.map_id]

/-- Group keys of the summary are pairwise distinct. -/
theorem flagGroupSummary_nodup (flagOf : OrderReview → Option ℚ)
    (pos neg : String) (input : List OrderReview) :
    ((flagGroupSummary flagOf pos neg input).map UpliftRow.flag).Nodup := by
  rw [flagGroupSummary_map_flag]
  exact (List.perm_insertionSort flagLe _).nodup_iff.mpr
    (input.map flagOf).nodup_dedup

/-- A flag value heads a summary row iff it occurs in the input. -/
theorem flagGroupSummary_mem_flag (flagOf : OrderReview → Option ℚ)
    (pos neg : String) (input : List OrderReview) (v : Option ℚ) :
    v ∈ (flagGroupSummary flagOf pos neg input).map UpliftRow.flag ↔
      v ∈ input.map flagOf := by
  rw [flagGroupSummary_map_flag]
  simp

/-- With flags confined to 0, 1 and missing, the summary has at most
three rows. -/
theorem flagGroupSummary_length_le (flagOf : OrderReview → Option ℚ)
    (pos neg : String) (input : List OrderReview)
    (h : ∀ r ∈ input, flagOf r = some 0 ∨ flagOf r = some 1 ∨ flagOf r = none) :
    (flagGroupSummary flagOf pos neg input).length ≤ 3 := by
  have hlen : (flagGroupSummary flagOf pos neg input).length =
      ((input.map flagOf).dedup).length := by
    have := congrArg List.length (flagGroupSummary_map_flag flagOf pos neg input)
    rw [List.length_map] at this
    rw [this, (List.perm_insertionSort flagLe _).length_eq]
  rw [hlen]
  have hsub : (input.map flagOf).dedup ⊆ [some 0, some 1, none] := by
    intro x hx
    rw [List.mem_dedup, List.mem_map] at hx
    obtain ⟨r, hr, rfl⟩ := hx
    simpa using h r hr
  simpa using
    (List.subperm_of_subset (input.map flagOf).nodup_dedup hsub).length_le

/-- Each summary row carries the positive label exactly when its flag
equals 1. -/
theorem flagGroupSummary_segment (flagOf : OrderReview → Option ℚ)
    (pos neg : String) (input : List OrderReview) :
    ∀ row ∈ flagGroupSummary flagOf pos neg input,
      row.segment = if row.flag = some 1 then pos else neg := by
  intro row hrow
  unfold flagGroupSummary at hrow
  rw [List.mem_map] at hrow
  obtain ⟨k, hk, rfl⟩ := hrow
  rfl

/-- C7: for every order-review input, each uplift summary
(`uplift_analysis` and `simulation_uplift_analysis`) has exactly one row
per distinct grouping-flag value present in the input (distinct rows,
membership both ways), at most three rows when flags are confined to
0/1/missing (the missing-flag group being retained), and the positive
segment label exactly on flag = 1. -/
theorem uplift_groups_spec (input : List OrderReview) :
    (((uplift_analysis input).map UpliftRow.flag).Nodup ∧
     (∀ v, v ∈ (uplift_analysis input).map UpliftRow.flag ↔
        v ∈ input.map OrderReview.is_free_shipping_order) ∧
     ((∀ r ∈ input, r.is_free_shipping_order = some 0 ∨
         r.is_free_shipping_order = some 1 ∨
         r.is_free_shipping_order = none) →
       (uplift_analysis input).length ≤ 3) ∧
     (∀ row ∈ uplift_analysis input,
        row.segment =
          if row.flag = some 1 then "FreeShipping" else "PaidShipping")) ∧
    (((simulation_uplift_analysis input).map UpliftRow.flag).Nodup ∧
     (∀ v, v ∈ (simulation_uplift_analysis input).map UpliftRow.flag ↔
        v ∈ input.map OrderReview.hk_sim_free_ship_flag) ∧
     ((∀ r ∈ input, r.hk_sim_free_ship_flag = some 0 ∨
         r.hk_sim_free_ship_flag = some 1 ∨ r.hk_sim_free_ship_flag = none) →
       (simulation_uplift_analysis input).length ≤ 3) ∧
     (∀ row ∈ simulation_uplift_analysis input,
        row.segment =
          if row.flag = some 1 then "HK_Policy_Eligible"
          else "HK_Policy_NotEligible")) :=
  ⟨⟨flagGroupSummary_nodup _ _ _ input,
    fun v => flagGroupSummary_mem_flag _ _ _ input v,
    fun h => flagGroupSummary_length_le _ _ _ input h,
    flagGroupSummary_segment _ _ _ input⟩,
   ⟨flagGroupSummary_nodup _ _ _ input,
    fun v => flagGroupSummary_mem_flag _ _ _ input v,
    fun h => flagGroupSummary_length_le _ _ _ input h,
    flagGroupSummary_segment _ _ _ input⟩⟩

/-- Witness for `uplift_groups_spec` on `exRepOrders`. -/
theorem uplift_groups_spec_witness :
    (∀ r ∈ exRepOrders, r.is_free_shipping_order = some 0 ∨
        r.is_free_shipping_order = some 1 ∨
        r.is_free_shipping_order = none) ∧
    (uplift_analysis exRepOrders).length ≤ 3 ∧
    (∀ r ∈ exRepOrders, r.hk_sim_free_ship_flag = some 0 ∨
        r.hk_sim_free_ship_flag = some 1 ∨ r.hk_sim_free_ship_flag = none) ∧
    (simulation_uplift_analysis exRepOrders).length ≤ 3 := by
  have h1 : ∀ r ∈ exRepOrders, r.is_free_shipping_order = some 0 ∨
      r.is_free_shipping_order = some 1 ∨ r.is_free_shipping_order = none := by
    intro r hr
    simp only [exRepOrders, List.mem_cons, List.not_mem_nil, or_false] at hr
    rcases hr with rfl | rfl <;> norm_num
  have h2 : ∀ r ∈ exRepOrders, r.hk_sim_free_ship_flag = some 0 ∨
      r.hk_sim_free_ship_flag = some 1 ∨ r.hk_sim_free_ship_flag = none := by
    intro r hr
    simp only [exRepOrders, List.mem_cons, List.not_mem_nil, or_false] at hr
    rcases hr with rfl | rfl <;> norm_num
  exact ⟨h1, (uplift_groups_spec exRepOrders).1.2.2.1 h1, h2,
    (uplift_groups_spec exRepOrders).2.2.2.1 h2⟩

/-- The summary has exactly as many rows as there are distinct flag
values in the input. -/
theorem flagGroupSummary_length (flagOf : OrderReview → Option ℚ)
    (pos neg : String) (input : List OrderReview) :
    (flagGroupSummary flagOf pos neg input).length =
      ((input.map flagOf).dedup).length := by
  have := congrArg List.length (flagGroupSummary_map_flag flagOf pos neg input)
  rw [List.length_map] at this
  rw [this, (List.perm_insertionSort flagLe _).length_eq]

/-- When no input row has free-shipping flag 1, every summary row gets
the negative label. -/
theorem uplift_segments_all_paid {input : List OrderReview}
    (h : ∀ r ∈ input, r.is_free_shipping_order ≠ some 1) :
    ∀ row ∈ uplift_analysis input, row.segment = "PaidShipping" := by
  intro row hrow
  have hflag : row.flag ∈ (uplift_analysis input).map UpliftRow.flag :=
    List.mem_map_of_mem _ hrow
  rw [uplift_analysis, flagGroupSummary_mem_flag, List.mem_map] at hflag
  obtain ⟨r, hr, hfr⟩ := hflag
  have hseg := flagGroupSummary_segment (·.is_free_shipping_order)
    "FreeShipping" "PaidShipping" input row hrow
  rw [hseg, if_neg]
  intro heq
  exact h r hr (hfr.trans heq)

/-- C10: the reporter needs both segment rows.  If no input row has
free-shipping flag 1 then the uplift summary has no `FreeShipping` row
and `build_recommendation_text` fails with `IndexError` at the
`.iloc[0]` selection, whereas the `PaidShipping` side still has a first
row for any non-empty input because all such rows receive the negative
label. -/
theorem reporter_requires_free_row (input : List OrderReview)
    (corr : CorrCol → CorrCol → ℝ) (ttest : TTestRow)
    (seller_uplift : CampaignTable) (policy : List PolicySim)
    (h : ∀ r ∈ input, r.is_free_shipping_order ≠ some 1) :
    ((uplift_analysis input).filter fun r =>
        decide (r.segment = "FreeShipping")) = [] ∧
    build_recommendation_parts corr (uplift_analysis input) ttest
        seller_uplift policy =
      .error "IndexError: single positional indexer is out-of-bounds" ∧
    (input ≠ [] →
      ((uplift_analysis input).filter fun r =>
          decide (r.segment = "PaidShipping")).head?.isSome = true) := by
  have hseg := uplift_segments_all_paid h
  have hfree : ((uplift_analysis input).filter fun r =>
      decide (r.segment = "FreeShipping")) = [] := by
    rw [List.filter_eq_nil_iff]
    intro row hrow
    simp [hseg row hrow]
  refine ⟨hfree, ?_, ?_⟩
  · unfold build_recommendation_parts
    rw [hfree]
    rfl
  · intro hne
    have hpaid : ((uplift_analysis input).filter fun r =>
        decide (r.segment = "PaidShipping")) = uplift_analysis input :=
      List.filter_eq_self.mpr fun row hrow => by simp [hseg row hrow]
    rw [hpaid]
    have hlen : uplift_analysis input ≠ [] := by
      intro hu
      have := flagGroupSummary_length (·.is_free_shipping_order)
        "FreeShipping" "PaidShipping" input
      rw [uplift_analysis] at hu
      rw [hu] at this
      simp only [List.length_nil] at this
      have hdedup : ((input.map (·.is_free_shipping_order)).dedup) = [] :=
        List.length_eq_zero.mp this.symm
      rw [List.dedup_eq_nil, List.map_eq_nil_iff] at hdedup
      exact hne hdedup
    cases hu : uplift_analysis input with
    | nil => exact absurd hu hlen
    | cons a l => simp

/-- Witness for `reporter_requires_free_row` on `exNoFreeOrders`. -/
theorem reporter_requires_free_row_witness :
    (∀ r ∈ exNoFreeOrders, r.is_free_shipping_order ≠ some 1) ∧
    build_recommendation_parts (fun _ _ => 0)
        (uplift_analysis exNoFreeOrders) exTTestZero
        ⟨campaignColumns, []⟩ [] =
      .error "IndexError: single positional indexer is out-of-bounds" ∧
    exNoFreeOrders ≠ [] ∧
    ((uplift_analysis exNoFreeOrders).filter fun r =>
        decide (r.segment = "PaidShipping")).head?.isSome = true := by
  have h : ∀ r ∈ exNoFreeOrders, r.is_free_shipping_order ≠ some 1 := by
    intro r hr
    simp only [exNoFreeOrders, List.mem_cons, List.not_mem_nil, or_false] at hr
    rcases hr with rfl | rfl <;> simp
  have happ := reporter_requires_free_row exNoFreeOrders (fun _ _ => 0)
    exTTestZero ⟨campaignColumns, []⟩ [] h
  exact ⟨h, happ.2.1, by simp [exNoFreeOrders],
    happ.2.2 (by simp [exNoFreeOrders])⟩

/-- Swapping the column pair swaps the paired observations. -/
theorem pairsOf_swap (input : List CorrInputRow) (i j : CorrCol) :
    pairsOf input j i = (pairsOf input i j).map Prod.swap := by
  induction input with
  | nil => rfl
  | cons r l ih =>
    cases hi : colVal i r <;> cases hj : colVal j r <;>
      simp [pairsOf, List.filterMap_cons, hi, hj, Prod.swap] <;>
      simpa [pairsOf] using ih

/-- The centered cross-product sum is invariant under swapping. -/
theorem sXY_map_swap (l : List (ℚ × ℚ)) : sXY (l.map Prod.swap) = sXY l := by
  unfold sXY
  have h1 : (l.map Prod.swap).map Prod.fst = l.map Prod.snd := by
    rw [List.map_map]; rfl
  have h2 : (l.map Prod.swap).map Prod.snd = l.map Prod.fst := by
    rw [List.map_map]; rfl
  rw [h1, h2, List.map_map]
  refine congrArg List.sum (List.map_congr_left fun p hp => ?_)
  simp only [Function.comp_apply, Prod.fst_swap, Prod.snd_swap]
  ring

/-- Swapping exchanges the two centered sums of squares. -/
theorem sXX_map_swap (l : List (ℚ × ℚ)) : sXX (l.map Prod.swap) = sYY l := by
  unfold sXX sYY
  have h1 : (l.map Prod.swap).map Prod.fst = l.map Prod.snd := by
    rw [List.map_map]; rfl
  rw [h1, List.map_map]
  exact congrArg List.sum (List.map_congr_left fun p hp => rfl)

/-- Swapping exchanges the two centered sums of squares (other side). -/
theorem sYY_map_swap (l : List (ℚ × ℚ)) : sYY (l.map Prod.swap) = sXX l := by
  unfold sXX sYY
  have h2 : (l.map Prod.swap).map Prod.snd = l.map Prod.fst := by
    rw [List.map_map]; rfl
  rw [h2, List.map_map]
  exact congrArg List.sum (List.map_congr_left fun p hp => rfl)

/-- Pairing a column with itself duplicates its present values. -/
theorem pairsOf_diag (input : List CorrInputRow) (i : CorrCol) :
    pairsOf input i i = (input.filterMap (colVal i)).map fun a => (a, a) := by
  induction input with
  | nil => rfl
  | cons r l ih =>
    cases hi : colVal i r <;>
      simp [pairsOf, List.filterMap_cons, hi] <;>
      simpa [pairsOf] using ih

/-- First components of the duplicated pairing. -/
theorem map_pair_fst (v : List ℚ) :
    ((v.map fun a => (a, a)).map Prod.fst) = v := by
  rw [List.map_map]
  exact List.map_id' v

/-- Second components of the duplicated pairing. -/
theorem map_pair_snd (v : List ℚ) :
    ((v.map fun a => (a, a)).map Prod.snd) = v := by
  rw [List.map_map]
  exact List.map_id' v

/-- On a duplicated pairing the cross-product sum is the sum of
squares. -/
theorem sXY_diag (v : List ℚ) :
    sXY (v.map fun a => (a, a)) = sXX (v.map fun a => (a, a)) := by
  unfold sXY sXX
  rw [map_pair_fst, map_pair_snd, List.map_map, List.map_map]
  refine congrArg List.sum (List.map_congr_left fun a ha => ?_)
  simp [sq]

/-- On a duplicated pairing both sums of squares agree. -/
theorem sYY_diag (v : List ℚ) :
    sYY (v.map fun a => (a, a)) = sXX (v.map fun a => (a, a)) := by
  unfold sYY sXX
  rw [map_pair_fst, map_pair_snd, List.map_map, List.map_map]
  exact congrArg List.sum (List.map_congr_left fun a ha => rfl)

/-- C9: over the five fixed analyzed columns, the Pearson correlation
matrix of `correlation_analysis` is symmetric and has 1 at every
diagonal entry for any non-degenerate input (each column's centered sum
of squares over its present values is positive). -/
theorem correlation_symm_diag (input : List CorrInputRow)
    (h : ∀ i, 0 < diagS input i) :
    (∀ i j, correlation_analysis input i j = correlation_analysis input j i) ∧
    (∀ i, correlation_analysis input i i = 1) := by
  constructor
  · intro i j
    unfold correlation_analysis
    rw [pairsOf_swap input i j]
    dsimp only
    rw [sXY_map_swap, sXX_map_swap, sYY_map_swap,
      mul_comm (sYY (pairsOf input i j)) (sXX (pairsOf input i j))]
  · intro i
    have hd := h i
    unfold diagS at hd
    rw [pairsOf_diag] at hd
    unfold correlation_analysis
    rw [pairsOf_diag]
    dsimp only
    rw [sXY_diag, sYY_diag]
    set S := sXX ((input.filterMap (colVal i)).map fun a => (a, a)) with hS
    have hSpos : (0 : ℝ) < (S : ℝ) := by exact_mod_cast hd
    have hcast : ((S * S : ℚ) : ℝ) = (S : ℝ) * (S : ℝ) := by push_cast; ring
    rw [hcast, Real.sqrt_mul_self hSpos.le]
    exact div_self hSpos.ne'

/-- Witness for `correlation_symm_diag` on `exCorrRows`. -/
theorem correlation_symm_diag_witness :
    (∀ i, 0 < diagS exCorrRows i) ∧
    correlation_analysis exCorrRows .order_count .avg_freight_per_order =
      correlation_analysis exCorrRows .avg_freight_per_order .order_count ∧
    correlation_analysis exCorrRows .order_count .order_count = 1 := by
  have h : ∀ i, 0 < diagS exCorrRows i := by
    intro i
    cases i <;>
      norm_num [diagS, sXX, pairsOf, colVal, meanQ, exCorrRows,
        List.filterMap]
  exact ⟨h, (correlation_symm_diag exCorrRows h).1 _ _,
    (correlation_symm_diag exCorrRows h).2 _⟩

/-- A review score belongs to a t-test sample iff some input row has the
given known flag value and that known review score. -/
theorem mem_sample (c : ℚ) (input : List OrderReview) (q : ℚ) :
    q ∈ (input.filter fun r =>
        decide (r.is_free_shipping_order = some c) &&
          r.review_score.isSome).filterMap (·.review_score) ↔
      ∃ r ∈ input, r.is_free_shipping_order = some c ∧
        r.review_score = some q := by
  rw [List.mem_filterMap]
  constructor
  · rintro ⟨r, hr, hq⟩
    rw [List.mem_filter] at hr
    have hp := hr.2
    rw [Bool.and_eq_true, decide_eq_true_eq] at hp
    exact ⟨r, hr.1, hp.1, hq⟩
  · rintro ⟨r, hr, hflag, hq⟩
    exact ⟨r, List.mem_filter.mpr ⟨hr, by simp [hflag, hq]⟩, hq⟩

/-- C8: the t-test samples are exactly the review scores of rows with a
known flag (1 for the first group, 0 for the second) and a non-missing
review score; the returned row reports both group sizes and labels, both
group means (the arithmetic mean of each non-empty sample), and the
unequal-variance (Welch) statistic and p-value: the t-statistic satisfies
`t * sqrt(var_a/n_a + var_b/n_b) = mean_a - mean_b` whenever the variance
term is positive. -/
theorem ttest_spec (input : List OrderReview) :
    (∀ q : ℚ, q ∈ freeSample input ↔
      ∃ r ∈ input, r.is_free_shipping_order = some 1 ∧
        r.review_score = some q) ∧
    (∀ q : ℚ, q ∈ paidSample input ↔
      ∃ r ∈ input, r.is_free_shipping_order = some 0 ∧
        r.review_score = some q) ∧
    (ttest_analysis input).n_a = (freeSample input).length ∧
    (ttest_analysis input).n_b = (paidSample input).length ∧
    (ttest_analysis input).group_a = "FreeShipping" ∧
    (ttest_analysis input).group_b = "PaidShipping" ∧
    (freeSample input ≠ [] →
      (ttest_analysis input).mean_a =
        some ((freeSample input).sum / (freeSample input).length)) ∧
    (paidSample input ≠ [] →
      (ttest_analysis input).mean_b =
        some ((paidSample input).sum / (paidSample input).length)) ∧
    (ttest_analysis input).t_stat =
      welchT (freeSample input) (paidSample input) ∧
    (ttest_analysis input).p_value =
      welchP (freeSample input) (paidSample input) ∧
    (0 < sampleVar (freeSample input) / (freeSample input).length +
        sampleVar (paidSample input) / (paidSample input).length →
      (ttest_analysis input).t_stat *
          Real.sqrt
            ((sampleVar (freeSample input) / (freeSample input).length +
              sampleVar (paidSample input) / (paidSample input).length : ℚ) :
              ℝ) =
        ((meanQ (freeSample input) - meanQ (paidSample input) : ℚ) : ℝ)) := by
  refine ⟨fun q => mem_sample 1 input q, fun q => mem_sample 0 input q,
    rfl, rfl, rfl, rfl, ?_, ?_, rfl, rfl, ?_⟩
  · intro hne
    simp only [ttest_analysis, List.isEmpty_eq_true]
    rw [if_neg hne]
    rfl
  · intro hne
    simp only [ttest_analysis, List.isEmpty_eq_true]
    rw [if_neg hne]
    rfl
  · intro hv
    have hvR : (0 : ℝ) <
        ((sampleVar (freeSample input) / (freeSample input).length +
          sampleVar (paidSample input) / (paidSample input).length : ℚ) : ℝ) := by
      exact_mod_cast hv
    have hsqrt : Real.sqrt
        ((sampleVar (freeSample input) / (freeSample input).length +
          sampleVar (paidSample input) / (paidSample input).length : ℚ) : ℝ) ≠
          0 :=
      ne_of_gt (Real.sqrt_pos.mpr hvR)
    show welchT (freeSample input) (paidSample input) * _ = _
    unfold welchT
    rw [div_mul_cancel₀ _ hsqrt]

/-- Witness for `ttest_spec` on `exTTOrders`. -/
theorem ttest_spec_witness :
    freeSample exTTOrders = [5, 4] ∧
    paidSample exTTOrders = [3, 1] ∧
    freeSample exTTOrders ≠ [] ∧
    (ttest_analysis exTTOrders).mean_a =
      some ((freeSample exTTOrders).sum / (freeSample exTTOrders).length) ∧
    0 < sampleVar (freeSample exTTOrders) / (freeSample exTTOrders).length +
        sampleVar (paidSample exTTOrders) / (paidSample exTTOrders).length ∧
    (ttest_analysis exTTOrders).t_stat *
        Real.sqrt
          ((sampleVar (freeSample exTTOrders) / (freeSample exTTOrders).length +
            sampleVar (paidSample exTTOrders) /
              (paidSample exTTOrders).length : ℚ) : ℝ) =
      ((meanQ (freeSample exTTOrders) -
        meanQ (paidSample exTTOrders) : ℚ) : ℝ) := by
  have hfree : freeSample exTTOrders = [5, 4] := by
    norm_num +decide [freeSample, exTTOrders, List.filter, List.filterMap]
  have hpaid : paidSample exTTOrders = [3, 1] := by
    norm_num +decide [paidSample, exTTOrders, List.filter, List.filterMap]
  have hne : freeSample exTTOrders ≠ [] := by rw [hfree]; simp
  have hv : 0 <
      sampleVar (freeSample exTTOrders) / (freeSample exTTOrders).length +
        sampleVar (paidSample exTTOrders) / (paidSample exTTOrders).length := by
    rw [hfree, hpaid]
    norm_num [sampleVar, meanQ]
  exact ⟨hfree, hpaid, hne, (ttest_spec exTTOrders).2.2.2.2.2.2.1 hne,
    hv, (ttest_spec exTTOrders).2.2.2.2.2.2.2.2.2.2 hv⟩
